import Mathlib

/-!
# Graph store over a SQL table (pkg/store/graphstore_sql.go)

A shallow embedding of the SQL-backed graph store.  The Go code talks to the
persistence engine only through `db.Exec` and `db.Query` with six constant
statements, and reads result sets through a cursor (`rows.Next`, `rows.Scan`,
`rows.Close`).  The embedding has three layers:

* the five store operations and `readFullyAndClose`, written against an
  abstract `Engine` (what `*sql.DB` offers to this file);
* the cursor `Rows`, whose rows carry the outcome of `rows.Scan` and which may
  end early with an iteration error (`rows.Err()`);
* `sqlite`, the engine obtained by reading the six statement constants with
  SQLite semantics over a table held as a list of rows in insertion order.

Go strings and byte slices are byte sequences; text comparison in the
statements is byte equality (SQLite, BINARY collation).  The values bound to
a statement pass through the argument conversion of `database/sql` before the
statement runs: a `uint64` with the high bit set is refused there.  Loss of
connectivity is not part of `sqlite`.  Result rows come in insertion order;
the properties below that speak of result sets are stated by membership and
multiplicity, so they do not depend on that choice.
-/

namespace GraphStore

/-! ## Data model -/

/-- A Go `string`: an immutable sequence of bytes. -/
abbrev GoString := List UInt8

/-- A Go `[]byte`. -/
abbrev Bytes := List UInt8

/-- The Go conversion `string(b)` of a byte slice. -/
def string (b : Bytes) : GoString := b

/-- The Go conversion `[]byte(s)` of a string. -/
def bytes (s : GoString) : Bytes := s

/-- Modelled from the spec: the `GraphItem` struct is declared outside
graphstore_sql.go; its six fields are the ones the file reads in `Put` and
writes in `readFullyAndClose` (`Version` is a uint64, `Encoding` a uint8). -/
structure GraphItem where
  GraphItemType : GoString
  K1 : Bytes
  K2 : Bytes
  Version : Nat
  Encoding : Nat
  GraphItemData : Bytes
deriving DecidableEq, Repr

/-- Modelled from the spec: the `PrimaryKey` struct is declared outside
graphstore_sql.go; `FindByPrimary` reads these three fields. -/
structure PrimaryKey where
  GraphItemType : GoString
  K1 : Bytes
  K2 : Bytes
deriving DecidableEq, Repr

/-- Modelled from the spec: the `SecondaryKey` struct is declared outside
graphstore_sql.go; `FindBySecondary` reads these three fields. -/
structure SecondaryKey where
  GraphItemType : GoString
  K1 : Bytes
  Version : Nat
deriving DecidableEq, Repr

/-- The error values that can come out of the operations: the two that
graphstore_sql.go builds itself with `fmt.Errorf`, and the ones handed up
unchanged from the engine. -/
inductive Err where
  /-- The engine rejected an INSERT: PRIMARY KEY or UNIQUE constraint failed. -/
  | constraintViolation
  /-- The error of the argument conversion of `database/sql`: "uint64 values
  with high bit set are not supported". -/
  | conversion
  /-- Any other error produced by the engine, the driver or the cursor. -/
  | backend (code : Nat)
  /-- The Go value `fmt.Errorf("failed to read record using primary key: %v", key)`. -/
  | failedPrimary (key : PrimaryKey)
  /-- The Go value `fmt.Errorf("failed to read record using secondary key: %v", key)`. -/
  | failedSecondary (key : SecondaryKey)
deriving DecidableEq, Repr

/-- One row of `dts_graph`, columns in declaration order. -/
structure Row where
  graph_data_type : GoString
  k1 : GoString
  k2 : GoString
  version : Nat
  encoding : Nat
  graph_data : GoString
deriving DecidableEq, Repr

/-- A Go value bound to a `?` placeholder, by its Go type: a `string`, a
`uint64` or a `uint8`. -/
inductive Value where
  | text (s : GoString)
  | uint64 (n : Nat)
  | uint8 (n : Nat)
deriving DecidableEq, Repr

/-- The statement constants of graphstore_sql.go. -/
inductive Stmt where
  | createGraphDataTable
  | insertGraphData
  | selectGraphDataPrimaryKey
  | selectGraphDataSecondaryKey
  | selectGraphDataUpstreamDependencies
  | selectGraphDataDownstreamDependencies
deriving DecidableEq, Repr

/-! ## The cursor and the engine interface -/

/-- A `*sql.Rows` cursor.  `pending` lists the rows that `rows.Next()` will
still deliver, each with the outcome `rows.Scan` has on it.  When `pending` is
used up `rows.Next()` returns false; `lasterr` is then what `rows.Err()`
reports: `none` when the result set was exhausted, `some e` when advancing to
the next row failed.  `closed` records `rows.Close()`. -/
structure Rows where
  pending : List (Except Err Row)
  lasterr : Option Err
  closed : Bool

/-- What graphstore_sql.go uses of `*sql.DB`, over engine states `σ`:
`Exec` returns the Go `error` (`none` is nil) and the next state, `Query`
returns a cursor or an error and leaves the state alone. -/
structure Engine (σ : Type) where
  Exec : σ → Stmt → List Value → Option Err × σ
  Query : σ → Stmt → List Value → Except Err Rows

/-- The Go struct `sqlGraphStore`. -/
structure sqlGraphStore (σ : Type) where
  db : Engine σ

/-! ## The operations of graphstore_sql.go -/

/-- The body of the `for ; rows.Next() ;` loop of `readFullyAndClose`, run
over the rows the cursor still delivers, with the slice `results` built so
far.  Returns the value returned (or the slice at loop exit) and the rows left
unread. -/
def readLoop : List (Except Err Row) → List GraphItem →
    Except Err (List GraphItem) × List (Except Err Row)
  | [], results => (.ok results, [])
  | .error err :: rest, _ => (.error err, rest)
  | .ok c :: rest, results =>
      readLoop rest (results ++ [{ GraphItemType := c.graph_data_type
                                   K1 := bytes c.k1
                                   K2 := bytes c.k2
                                   Version := c.version
                                   Encoding := c.encoding
                                   GraphItemData := bytes c.graph_data }])

/-- The Go function `readFullyAndClose`: the returned pair `(results, err)` as
an `Except`, and the cursor as it is left (closed by the deferred
`rows.Close()`).  After the loop the function returns `results, nil` without
looking at `rows.Err()`. -/
def readFullyAndClose (rows : Rows) : Except Err (List GraphItem) × Rows :=
  let out := readLoop rows.pending []
  (out.1, { rows with pending := out.2, closed := true })

/-- The Go method `sqlGraphStore.Put`: the returned `error` and the engine
state after the call. -/
def Put {σ : Type} (gs : sqlGraphStore σ) (s : σ) (item : GraphItem) : Option Err × σ :=
  gs.db.Exec s .insertGraphData
    [.text item.GraphItemType, .text (string item.K1), .text (string item.K2),
     .uint64 item.Version, .uint8 item.Encoding, .text (string item.GraphItemData)]

/-- The Go method `sqlGraphStore.FindByPrimary`. -/
def FindByPrimary {σ : Type} (gs : sqlGraphStore σ) (s : σ) (key : PrimaryKey) :
    Except Err GraphItem :=
  match gs.db.Query s .selectGraphDataPrimaryKey
      [.text key.GraphItemType, .text (string key.K1), .text (string key.K2)] with
  | .error err => .error err
  | .ok rows =>
    match (readFullyAndClose rows).1 with
    | .error err => .error err
    | .ok res =>
      if h : res.length ≠ 1 then .error (.failedPrimary key)
      else .ok (res.get ⟨0, by omega⟩)

/-- The Go method `sqlGraphStore.FindBySecondary`. -/
def FindBySecondary {σ : Type} (gs : sqlGraphStore σ) (s : σ) (key : SecondaryKey) :
    Except Err GraphItem :=
  match gs.db.Query s .selectGraphDataSecondaryKey
      [.text key.GraphItemType, .text (string key.K1), .uint64 key.Version] with
  | .error err => .error err
  | .ok rows =>
    match (readFullyAndClose rows).1 with
    | .error err => .error err
    | .ok res =>
      if h : res.length ≠ 1 then .error (.failedSecondary key)
      else .ok (res.get ⟨0, by omega⟩)

/-- The Go method `sqlGraphStore.FindUpstream`. -/
def FindUpstream {σ : Type} (gs : sqlGraphStore σ) (s : σ) (key : Bytes) :
    Except Err (List GraphItem) :=
  match gs.db.Query s .selectGraphDataUpstreamDependencies [.text (string key)] with
  | .error err => .error err
  | .ok rows =>
    match (readFullyAndClose rows).1 with
    | .error err => .error err
    | .ok res => .ok res

/-- The Go method `sqlGraphStore.FindDownstream`. -/
def FindDownstream {σ : Type} (gs : sqlGraphStore σ) (s : σ) (key : Bytes) :
    Except Err (List GraphItem) :=
  match gs.db.Query s .selectGraphDataDownstreamDependencies [.text (string key)] with
  | .error err => .error err
  | .ok rows =>
    match (readFullyAndClose rows).1 with
    | .error err => .error err
    | .ok res => .ok res

/-! ## The statements read with SQLite semantics -/

/-- The contents of `dts_graph`, in insertion order. -/
abbrev Table := List Row

/-- The cursor over a result set that the engine delivers whole: every row
scans, and iteration ends by exhaustion. -/
def cursor (rs : List Row) : Rows :=
  { pending := rs.map .ok, lasterr := none, closed := false }

/-- Statement `insertGraphData` on a table with `PRIMARY KEY (graph_data_type,
k1, k2)` and `UNIQUE (graph_data_type, k1, version)`: the row is appended
unless a stored row has the same primary key or the same unique triple, in
which case the statement fails and the table is as before. -/
def insertRow (t : Table) (row : Row) : Option Err × Table :=
  if t.any (fun r => decide (r.graph_data_type = row.graph_data_type ∧ r.k1 = row.k1
      ∧ r.k2 = row.k2)) then (some .constraintViolation, t)
  else if t.any (fun r => decide (r.graph_data_type = row.graph_data_type ∧ r.k1 = row.k1
      ∧ r.version = row.version)) then (some .constraintViolation, t)
  else (none, t ++ [row])

/-- Statement `selectGraphDataPrimaryKey`:
`WHERE graph_data_type = ? and k1 = ? and k2 = ?`. -/
def selectPrimaryKey (t : Table) (ty k1 k2 : GoString) : List Row :=
  t.filter (fun r => decide (r.graph_data_type = ty ∧ r.k1 = k1 ∧ r.k2 = k2))

/-- Statement `selectGraphDataSecondaryKey`:
`WHERE graph_data_type = ? and k1 = ? and version = ?`. -/
def selectSecondaryKey (t : Table) (ty k1 : GoString) (version : Nat) : List Row :=
  t.filter (fun r => decide (r.graph_data_type = ty ∧ r.k1 = k1 ∧ r.version = version))

/-- Statement `selectGraphDataUpstreamDependencies`:
`WHERE k1 IN (SELECT k2 FROM dts_graph WHERE k1 = ? and k1 != k2) AND k1 == k2`. -/
def selectUpstreamDependencies (t : Table) (k : GoString) : List Row :=
  t.filter (fun r =>
    decide (r.k1 ∈ (t.filter (fun e => decide (e.k1 = k ∧ e.k1 ≠ e.k2))).map (fun e => e.k2))
      && decide (r.k1 = r.k2))

/-- Statement `selectGraphDataDownstreamDependencies`:
`WHERE k2 IN (SELECT k1 FROM dts_graph WHERE k2 = ? and k1 != k2) AND k1 == k2`. -/
def selectDownstreamDependencies (t : Table) (k : GoString) : List Row :=
  t.filter (fun r =>
    decide (r.k2 ∈ (t.filter (fun e => decide (e.k2 = k ∧ e.k1 ≠ e.k2))).map (fun e => e.k1))
      && decide (r.k1 = r.k2))

/-- `db.Exec` on the table: the statement with its bound values.  The
arguments are converted first: a `uint64` of `2 ^ 63` or more is refused and
the statement does not run (a `uint8` always converts).  A statement that is
not executable with the values given is an engine error. -/
def sqliteExec (t : Table) : Stmt → List Value → Option Err × Table
  | .createGraphDataTable, [] => (none, t)
  | .insertGraphData,
      [.text ty, .text k1, .text k2, .uint64 version, .uint8 encoding, .text data] =>
      if 2 ^ 63 ≤ version then (some .conversion, t)
      else insertRow t { graph_data_type := ty, k1 := k1, k2 := k2, version := version
                         encoding := encoding, graph_data := data }
  | _, _ => (some (.backend 1), t)

/-- `db.Query` on the table, with the same conversion of the arguments: a
`uint64` of `2 ^ 63` or more is refused and no query runs. -/
def sqliteQuery (t : Table) : Stmt → List Value → Except Err Rows
  | .selectGraphDataPrimaryKey, [.text ty, .text k1, .text k2] =>
      .ok (cursor (selectPrimaryKey t ty k1 k2))
  | .selectGraphDataSecondaryKey, [.text ty, .text k1, .uint64 version] =>
      if 2 ^ 63 ≤ version then .error .conversion
      else .ok (cursor (selectSecondaryKey t ty k1 version))
  | .selectGraphDataUpstreamDependencies, [.text k] =>
      .ok (cursor (selectUpstreamDependencies t k))
  | .selectGraphDataDownstreamDependencies, [.text k] =>
      .ok (cursor (selectDownstreamDependencies t k))
  | _, _ => .error (.backend 1)

/-- The engine: `dts_graph` under the six statements. -/
def sqlite : Engine Table :=
  { Exec := sqliteExec, Query := sqliteQuery }

/-- The store `NewSQLGraphStore` returns for that engine. -/
def store : sqlGraphStore Table := { db := sqlite }

/-! ## Vocabulary of the properties -/

/-- The row `Put` binds for an item. -/
def GraphItem.row (x : GraphItem) : Row :=
  { graph_data_type := x.GraphItemType, k1 := string x.K1, k2 := string x.K2
    version := x.Version, encoding := x.Encoding, graph_data := string x.GraphItemData }

/-- The item `readFullyAndClose` builds from a row. -/
def Row.item (c : Row) : GraphItem :=
  { GraphItemType := c.graph_data_type, K1 := bytes c.k1, K2 := bytes c.k2
    Version := c.version, Encoding := c.encoding, GraphItemData := bytes c.graph_data }

/-- Store states reachable from the empty table by calls of `Put`
(successful or not). -/
inductive Reachable : Table → Prop where
  | empty : Reachable []
  | put {t : Table} (item : GraphItem) : Reachable t → Reachable (Put store t item).2

/-- The table after a sequence of `Put` calls, whatever each call returns. -/
def putAll (t : Table) (items : List GraphItem) : Table :=
  items.foldl (fun acc x => (Put store acc x).2) t

/-- Both uniqueness constraints of the table declaration hold. -/
def Valid (t : Table) : Prop :=
  t.Pairwise (fun a b =>
    ¬ (a.graph_data_type = b.graph_data_type ∧ a.k1 = b.k1 ∧ a.k2 = b.k2) ∧
    ¬ (a.graph_data_type = b.graph_data_type ∧ a.k1 = b.k1 ∧ a.version = b.version))

/-- The records a table holds, as items. -/
def records (t : Table) : List GraphItem := t.map Row.item

/-- Swap source and target of a row. -/
def Row.swap (r : Row) : Row := { r with k1 := r.k2, k2 := r.k1 }

/-! ## Data of the examples -/

/-- The adjacency example's node record `(type="g", A, A, v=1, enc=0,
data="nodeA")`. -/
def nodeA (A : Bytes) : GraphItem :=
  { GraphItemType := [103], K1 := A, K2 := A, Version := 1, Encoding := 0
    GraphItemData := [110, 111, 100, 101, 65] }

/-- The adjacency example's node record `(type="g", B, B, v=1, enc=0,
data="nodeB")`. -/
def nodeB (B : Bytes) : GraphItem :=
  { GraphItemType := [103], K1 := B, K2 := B, Version := 1, Encoding := 0
    GraphItemData := [110, 111, 100, 101, 66] }

/-- The adjacency example's edge record `(type="g", A, B, v, enc=0,
data="edge")`; the example has `v = 1`. -/
def edgeAB (A B : Bytes) (v : Nat) : GraphItem :=
  { GraphItemType := [103], K1 := A, K2 := B, Version := v, Encoding := 0
    GraphItemData := [101, 100, 103, 101] }

/-- A table with two rows under one primary key and one unique triple, as no
sequence of inserts produces it: what a point lookup would see if the
constraints were not enforced. -/
def twoRows : Table :=
  [ { graph_data_type := [103], k1 := [65], k2 := [65], version := 1, encoding := 0
      graph_data := [120] },
    { graph_data_type := [103], k1 := [65], k2 := [65], version := 1, encoding := 0
      graph_data := [121] } ]

/-- An engine whose queries deliver one row and then fail to advance: the
cursor ends with `rows.Err()` set (code 10, an I/O error while stepping). -/
def flaky : Engine Unit :=
  { Exec := fun s _ _ => (none, s)
    Query := fun _ _ _ =>
      .ok { pending := [.ok { graph_data_type := [103], k1 := [66], k2 := [66], version := 1
                              encoding := 0, graph_data := [110] }]
            lasterr := some (.backend 10)
            closed := false } }
/-! ## Auxiliary facts -/

@[simp] theorem string_eq (b : Bytes) : string b = b := rfl
@[simp] theorem bytes_eq (s : GoString) : bytes s = s := rfl
@[simp] theorem row_item (x : GraphItem) : x.row.item = x := rfl
@[simp] theorem item_row (c : Row) : c.item.row = c := rfl

theorem item_injective : Function.Injective Row.item := by
  intro a b h
  have := congrArg GraphItem.row h
  simpa using this

theorem mem_map_item {l : List Row} {r : GraphItem} : r ∈ l.map Row.item ↔ r.row ∈ l := by
  constructor
  · intro h
    obtain ⟨c, hc, rfl⟩ := List.mem_map.1 h
    simpa using hc
  · intro h
    exact List.mem_map.2 ⟨r.row, h, by simp⟩

theorem mem_records {t : Table} {r : GraphItem} : r ∈ records t ↔ r.row ∈ t :=
  mem_map_item

theorem exists_records {t : Table} {P : GraphItem → Prop} :
    (∃ e ∈ records t, P e) ↔ ∃ c ∈ t, P c.item := by
  simp [records]

theorem readLoop_ok (cs : List Row) (acc : List GraphItem) :
    readLoop (cs.map .ok) acc = (.ok (acc ++ cs.map Row.item), []) := by
  induction cs generalizing acc with
  | nil => simp [readLoop]
  | cons c cs ih =>
    simp only [List.map_cons, readLoop]
    rw [ih]
    simp [Row.item]

theorem readLoop_error (pre : List Row) (e : Err) (post : List (Except Err Row))
    (acc : List GraphItem) :
    readLoop (pre.map .ok ++ .error e :: post) acc = (.error e, post) := by
  induction pre generalizing acc with
  | nil => simp [readLoop]
  | cons c cs ih =>
    exact ih _

theorem readFullyAndClose_cursor (rs : List Row) :
    (readFullyAndClose (cursor rs)).1 = .ok (rs.map Row.item) := by
  simp [readFullyAndClose, cursor, readLoop_ok]

theorem put_store (t : Table) (x : GraphItem) :
    Put store t x =
      if 2 ^ 63 ≤ x.Version then (some .conversion, t) else insertRow t x.row := rfl

theorem findUpstream_store (t : Table) (k : Bytes) :
    FindUpstream store t k = .ok ((selectUpstreamDependencies t k).map Row.item) := by
  simp [FindUpstream, store, sqlite, sqliteQuery, readFullyAndClose_cursor]

theorem findDownstream_store (t : Table) (k : Bytes) :
    FindDownstream store t k = .ok ((selectDownstreamDependencies t k).map Row.item) := by
  simp [FindDownstream, store, sqlite, sqliteQuery, readFullyAndClose_cursor]

theorem findByPrimary_single {t : Table} (key : PrimaryKey) {c : Row}
    (h : selectPrimaryKey t key.GraphItemType key.K1 key.K2 = [c]) :
    FindByPrimary store t key = .ok c.item := by
  simp [FindByPrimary, store, sqlite, sqliteQuery, readFullyAndClose_cursor, h]

theorem findByPrimary_error {t : Table} {key : PrimaryKey}
    (h : (selectPrimaryKey t key.GraphItemType key.K1 key.K2).length ≠ 1) :
    FindByPrimary store t key = .error (.failedPrimary key) := by
  simp [FindByPrimary, store, sqlite, sqliteQuery, readFullyAndClose_cursor, h]

theorem findBySecondary_single {t : Table} (key : SecondaryKey) {c : Row}
    (hv : key.Version < 2 ^ 63)
    (h : selectSecondaryKey t key.GraphItemType key.K1 key.Version = [c]) :
    FindBySecondary store t key = .ok c.item := by
  have hv2 : ¬ 9223372036854775808 ≤ key.Version := by omega
  simp [FindBySecondary, store, sqlite, sqliteQuery, readFullyAndClose_cursor, h, hv2]

theorem findBySecondary_error {t : Table} {key : SecondaryKey}
    (hv : key.Version < 2 ^ 63)
    (h : (selectSecondaryKey t key.GraphItemType key.K1 key.Version).length ≠ 1) :
    FindBySecondary store t key = .error (.failedSecondary key) := by
  have hv2 : ¬ 9223372036854775808 ≤ key.Version := by omega
  simp [FindBySecondary, store, sqlite, sqliteQuery, readFullyAndClose_cursor, h, hv2]

theorem findBySecondary_conversion {t : Table} {key : SecondaryKey}
    (hv : 2 ^ 63 ≤ key.Version) :
    FindBySecondary store t key = .error .conversion := by
  have hv2 : 9223372036854775808 ≤ key.Version := by omega
  simp [FindBySecondary, store, sqlite, sqliteQuery, hv2]

theorem insertRow_ok {t : Table} {row : Row} (h : (insertRow t row).1 = none) :
    (∀ r ∈ t, ¬ (r.graph_data_type = row.graph_data_type ∧ r.k1 = row.k1 ∧ r.k2 = row.k2)) ∧
    (∀ r ∈ t, ¬ (r.graph_data_type = row.graph_data_type ∧ r.k1 = row.k1
      ∧ r.version = row.version)) ∧
    (insertRow t row).2 = t ++ [row] := by
  unfold insertRow at h ⊢
  split_ifs at h ⊢ with h1 h2
  simp only [List.any_eq_true, decide_eq_true_eq, not_exists, not_and] at h1 h2
  exact ⟨fun r hr hc => h1 r hr hc.1 hc.2.1 hc.2.2, fun r hr hc => h2 r hr hc.1 hc.2.1 hc.2.2, rfl⟩

theorem insertRow_fail {t : Table} {row : Row} (h : (insertRow t row).1 ≠ none) :
    insertRow t row = (some .constraintViolation, t) := by
  unfold insertRow at h ⊢
  split_ifs at h ⊢ with h1 h2 <;> first | rfl | simp at h


theorem put_ok {t : Table} {x : GraphItem} (h : (Put store t x).1 = none) :
    x.Version < 2 ^ 63 ∧ (insertRow t x.row).1 = none ∧
      (Put store t x).2 = (insertRow t x.row).2 := by
  rw [put_store] at h ⊢
  split_ifs at h ⊢ with hv
  exact ⟨not_le.1 hv, h, rfl⟩

theorem put_fail {t : Table} {x : GraphItem} (h : (Put store t x).1 ≠ none) :
    (Put store t x).2 = t := by
  rw [put_store] at h ⊢
  split_ifs at h ⊢ with hv
  · rfl
  · rw [insertRow_fail h]

theorem valid_of_reachable {t : Table} (h : Reachable t) : Valid t := by
  induction h with
  | empty => exact List.Pairwise.nil
  | @put t item _ ih =>
    by_cases hp : (Put store t item).1 = none
    · obtain ⟨_, hi, hs⟩ := put_ok hp
      obtain ⟨h1, h2, h3⟩ := insertRow_ok hi
      rw [hs, h3]
      unfold Valid at ih ⊢
      rw [List.pairwise_append]
      refine ⟨ih, List.pairwise_singleton _ _, ?_⟩
      intro a ha b hb
      rw [List.mem_singleton] at hb
      subst hb
      exact ⟨h1 a ha, h2 a ha⟩
    · rw [put_fail hp]
      exact ih

theorem nodup_of_valid {t : Table} (h : Valid t) : t.Nodup := by
  unfold Valid at h
  refine List.Pairwise.imp ?_ h
  intro a b hab heq
  subst heq
  exact hab.1 ⟨rfl, rfl, rfl⟩

theorem mem_selectUpstream {t : Table} {k : GoString} {c : Row} :
    c ∈ selectUpstreamDependencies t k ↔
      c ∈ t ∧ c.k1 = c.k2 ∧ ∃ e ∈ t, e.k1 = k ∧ e.k1 ≠ e.k2 ∧ e.k2 = c.k1 := by
  simp only [selectUpstreamDependencies, List.mem_filter, Bool.and_eq_true, decide_eq_true_eq,
    List.mem_map]
  constructor
  · rintro ⟨hc, ⟨e, ⟨he, h1, h2⟩, h3⟩, h4⟩
    exact ⟨hc, h4, e, he, h1, h2, h3⟩
  · rintro ⟨hc, h4, e, he, h1, h2, h3⟩
    exact ⟨hc, ⟨e, ⟨he, h1, h2⟩, h3⟩, h4⟩

theorem mem_selectDownstream {t : Table} {k : GoString} {c : Row} :
    c ∈ selectDownstreamDependencies t k ↔
      c ∈ t ∧ c.k1 = c.k2 ∧ ∃ e ∈ t, e.k2 = k ∧ e.k1 ≠ e.k2 ∧ e.k1 = c.k1 := by
  simp only [selectDownstreamDependencies, List.mem_filter, Bool.and_eq_true, decide_eq_true_eq,
    List.mem_map]
  constructor
  · rintro ⟨hc, ⟨e, ⟨he, h1, h2⟩, h3⟩, h4⟩
    exact ⟨hc, h4, e, he, h1, h2, h3.trans h4.symm⟩
  · rintro ⟨hc, h4, e, he, h1, h2, h3⟩
    exact ⟨hc, ⟨e, ⟨he, h1, h2⟩, h3.trans h4⟩, h4⟩

/-! ## The claims -/

/-- C1. Primary round trip: for every table (in particular every one reachable
by Puts from the empty store) and every item X, if `Put(X)` succeeds then
`FindByPrimary` with X's type, K1 and K2 on the resulting store succeeds and
returns X itself, all six fields included. -/
theorem primary_round_trip (t : Table) (X : GraphItem) (h : (Put store t X).1 = none) :
    FindByPrimary store (Put store t X).2
      { GraphItemType := X.GraphItemType, K1 := X.K1, K2 := X.K2 } = .ok X := by
  obtain ⟨_, hi, hs⟩ := put_ok h
  obtain ⟨h1, _, h3⟩ := insertRow_ok hi
  rw [hs, h3]
  have hsel : selectPrimaryKey (t ++ [X.row]) X.GraphItemType X.K1 X.K2 = [X.row] := by
    unfold selectPrimaryKey
    rw [List.filter_append]
    have hnil : t.filter (fun r => decide (r.graph_data_type = X.GraphItemType ∧ r.k1 = X.K1
        ∧ r.k2 = X.K2)) = [] := by
      rw [List.filter_eq_nil_iff]
      intro r hr
      simpa using h1 r hr
    rw [hnil]
    simp [GraphItem.row]
  exact findByPrimary_single ⟨X.GraphItemType, X.K1, X.K2⟩ hsel

/-- Witness for C1: on the empty store, Put of a node record succeeds and the
record is read back by its primary key. -/
theorem primary_round_trip_witness :
    (Put store [] ⟨[103], [65], [65], 1, 0, [110]⟩).1 = none ∧
    FindByPrimary store (Put store [] ⟨[103], [65], [65], 1, 0, [110]⟩).2
      { GraphItemType := [103], K1 := [65], K2 := [65] } = .ok ⟨[103], [65], [65], 1, 0, [110]⟩ :=
  ⟨rfl, primary_round_trip [] ⟨[103], [65], [65], 1, 0, [110]⟩ rfl⟩

/-- C8. Secondary round trip: for every table (in particular every reachable
one) and every item X, if `Put(X)` succeeds then `FindBySecondary` with X's
type, K1 and Version, and no K2, succeeds and returns X itself. -/
theorem secondary_round_trip (t : Table) (X : GraphItem) (h : (Put store t X).1 = none) :
    FindBySecondary store (Put store t X).2
      { GraphItemType := X.GraphItemType, K1 := X.K1, Version := X.Version } = .ok X := by
  obtain ⟨hv, hi, hs⟩ := put_ok h
  obtain ⟨_, h2, h3⟩ := insertRow_ok hi
  rw [hs, h3]
  have hsel : selectSecondaryKey (t ++ [X.row]) X.GraphItemType X.K1 X.Version = [X.row] := by
    unfold selectSecondaryKey
    rw [List.filter_append]
    have hnil : t.filter (fun r => decide (r.graph_data_type = X.GraphItemType ∧ r.k1 = X.K1
        ∧ r.version = X.Version)) = [] := by
      rw [List.filter_eq_nil_iff]
      intro r hr
      simpa using h2 r hr
    rw [hnil]
    simp [GraphItem.row]
  exact findBySecondary_single ⟨X.GraphItemType, X.K1, X.Version⟩ hv hsel

/-- Witness for C8: an edge record put after its source node (with another
version) is read back by type, source and version. -/
theorem secondary_round_trip_witness :
    (Put store [⟨[103], [65], [65], 1, 0, [110]⟩] ⟨[103], [65], [66], 2, 0, [101]⟩).1 = none ∧
    FindBySecondary store
      (Put store [⟨[103], [65], [65], 1, 0, [110]⟩] ⟨[103], [65], [66], 2, 0, [101]⟩).2
      { GraphItemType := [103], K1 := [65], Version := 2 }
        = .ok ⟨[103], [65], [66], 2, 0, [101]⟩ :=
  ⟨rfl, secondary_round_trip _ ⟨[103], [65], [66], 2, 0, [101]⟩ rfl⟩

/-- C2, as stated, fails: the store holds node A at Version 1; Put of a
record with the same primary key and Version 2^63 fails, but with the
conversion error of the driver and not with a constraint violation. -/
theorem put_high_version_refuted :
    (∃ r ∈ records [⟨[103], [65], [65], 1, 0, [110]⟩],
      r.GraphItemType = [103] ∧ r.K1 = [65] ∧ r.K2 = [65]) ∧
    Put store [⟨[103], [65], [65], 1, 0, [110]⟩]
        ⟨[103], [65], [65], 9223372036854775808, 0, [111]⟩
      = (some .conversion, [⟨[103], [65], [65], 1, 0, [110]⟩]) ∧
    (Put store [⟨[103], [65], [65], 1, 0, [110]⟩]
        ⟨[103], [65], [65], 9223372036854775808, 0, [111]⟩).1
      ≠ some .constraintViolation := by
  refine ⟨⟨⟨[103], [65], [65], 1, 0, [110]⟩, by simp [records, Row.item], rfl, rfl, rfl⟩,
    rfl, ?_⟩
  have h : (Put store [⟨[103], [65], [65], 1, 0, [110]⟩]
      ⟨[103], [65], [65], 9223372036854775808, 0, [111]⟩).1 = some .conversion := rfl
  rw [h]
  intro hc
  cases hc

/-- C2, amended. If the store holds a record with the primary key of Y (type,
K1, K2) or with its secondary key (type, K1, Version), `Put(Y)` fails and the
table is exactly as before: with the constraint violation when Y.Version is
below 2^63, with the conversion error of the driver when it is 2^63 or
more (the INSERT does not run then). -/
theorem put_write_once (t : Table) (Y : GraphItem)
    (h : (∃ r ∈ records t, r.GraphItemType = Y.GraphItemType ∧ r.K1 = Y.K1 ∧ r.K2 = Y.K2) ∨
      (∃ r ∈ records t, r.GraphItemType = Y.GraphItemType ∧ r.K1 = Y.K1
        ∧ r.Version = Y.Version)) :
    (Put store t Y).1 ≠ none ∧ (Put store t Y).2 = t ∧
    (Y.Version < 2 ^ 63 → Put store t Y = (some .constraintViolation, t)) ∧
    (2 ^ 63 ≤ Y.Version → Put store t Y = (some .conversion, t)) := by
  have hlow : Y.Version < 2 ^ 63 → Put store t Y = (some .constraintViolation, t) := by
    intro hv
    rw [put_store, if_neg (not_le.2 hv)]
    apply insertRow_fail
    intro hp
    obtain ⟨h1, h2, _⟩ := insertRow_ok hp
    rcases h with ⟨r, hr, hk⟩ | ⟨r, hr, hk⟩
    · exact h1 r.row (mem_records.1 hr) hk
    · exact h2 r.row (mem_records.1 hr) hk
  have hhigh : 2 ^ 63 ≤ Y.Version → Put store t Y = (some .conversion, t) := by
    intro hv
    rw [put_store, if_pos hv]
  refine ⟨?_, ?_, hlow, hhigh⟩
  · by_cases hv : Y.Version < 2 ^ 63
    · rw [hlow hv]
      simp
    · rw [hhigh (not_lt.1 hv)]
      simp
  · by_cases hv : Y.Version < 2 ^ 63
    · rw [hlow hv]
    · rw [hhigh (not_lt.1 hv)]

/-- Witness for C2 amended: a second record with the primary key of a stored
one, at Version 7 and with other data, is refused with the constraint
violation and the stored one stays. -/
theorem put_write_once_witness :
    ((∃ r ∈ records [⟨[103], [65], [65], 1, 0, [110]⟩],
        r.GraphItemType = [103] ∧ r.K1 = [65] ∧ r.K2 = [65]) ∨
      (∃ r ∈ records [⟨[103], [65], [65], 1, 0, [110]⟩],
        r.GraphItemType = [103] ∧ r.K1 = [65] ∧ r.Version = 7)) ∧
    (7 : Nat) < 2 ^ 63 ∧
    Put store [⟨[103], [65], [65], 1, 0, [110]⟩] ⟨[103], [65], [65], 7, 0, [111]⟩
      = (some .constraintViolation, [⟨[103], [65], [65], 1, 0, [110]⟩]) :=
  have h : (∃ r ∈ records [⟨[103], [65], [65], 1, 0, [110]⟩],
        r.GraphItemType = [103] ∧ r.K1 = [65] ∧ r.K2 = [65]) ∨
      (∃ r ∈ records [⟨[103], [65], [65], 1, 0, [110]⟩],
        r.GraphItemType = [103] ∧ r.K1 = [65] ∧ r.Version = 7) :=
    Or.inl ⟨⟨[103], [65], [65], 1, 0, [110]⟩, by simp [records, Row.item], rfl, rfl, rfl⟩
  ⟨h, by decide,
    (put_write_once [⟨[103], [65], [65], 1, 0, [110]⟩] ⟨[103], [65], [65], 7, 0, [111]⟩ h).2.2.1
      (by decide)⟩

/-- C3. FindUpstream characterisation: on every reachable store, for every
nodeID, `FindUpstream(nodeID)` succeeds and returns exactly the stored records
r with `r.K1 = r.K2` for which some stored record e has `e.K1 = nodeID`,
`e.K1 ≠ e.K2` and `e.K2 = r.K1`; no record is listed twice (however many edges
reach it); every returned record is a node record and none has
`K1 = nodeID`; a record with no direct non-self edge from nodeID (two or more
hops away, say) is not returned; and without an outgoing non-self edge the
result is empty. -/
theorem findUpstream_characterisation (t : Table) (nodeID : Bytes) (ht : Reachable t) :
    ∃ res, FindUpstream store t nodeID = .ok res ∧
      (∀ r, r ∈ res ↔ r ∈ records t ∧ r.K1 = r.K2 ∧
        ∃ e ∈ records t, e.K1 = nodeID ∧ e.K1 ≠ e.K2 ∧ e.K2 = r.K1) ∧
      res.Nodup ∧
      (∀ r ∈ res, r.K1 = r.K2 ∧ r.K1 ≠ nodeID) ∧
      (∀ r, (¬ ∃ e ∈ records t, e.K1 = nodeID ∧ e.K1 ≠ e.K2 ∧ e.K2 = r.K1) → r ∉ res) ∧
      ((∀ e ∈ records t, e.K1 = nodeID → e.K1 = e.K2) → res = []) := by
  have hmem : ∀ r, r ∈ (selectUpstreamDependencies t nodeID).map Row.item ↔
      r ∈ records t ∧ r.K1 = r.K2 ∧
        ∃ e ∈ records t, e.K1 = nodeID ∧ e.K1 ≠ e.K2 ∧ e.K2 = r.K1 := by
    intro r
    rw [mem_map_item, mem_selectUpstream, mem_records, exists_records]
    rfl
  refine ⟨_, findUpstream_store t nodeID, hmem, ?_, ?_, ?_, ?_⟩
  · exact ((nodup_of_valid (valid_of_reachable ht)).filter _).map item_injective
  · intro r hr
    obtain ⟨_, h1, e, _, h2, h3, h4⟩ := (hmem r).1 hr
    refine ⟨h1, ?_⟩
    intro h5
    exact h3 (h2.trans (h5.symm.trans h4.symm))
  · intro r hno hr
    obtain ⟨_, _, he⟩ := (hmem r).1 hr
    exact hno he
  · intro hno
    rw [List.eq_nil_iff_forall_not_mem]
    intro r hr
    obtain ⟨_, _, e, he, h2, h3, _⟩ := (hmem r).1 hr
    exact h3 (hno e he h2)

/-- Witness for C3: the store holding node A, node B and an edge from A to B
is reachable, and the characterisation holds on it for A. -/
theorem findUpstream_characterisation_witness :
    Reachable (putAll [] [⟨[103], [65], [65], 1, 0, [110]⟩, ⟨[103], [66], [66], 1, 0, [111]⟩,
      ⟨[103], [65], [66], 2, 0, [101]⟩]) ∧
    ∃ res, FindUpstream store (putAll [] [⟨[103], [65], [65], 1, 0, [110]⟩,
        ⟨[103], [66], [66], 1, 0, [111]⟩, ⟨[103], [65], [66], 2, 0, [101]⟩]) [65] = .ok res ∧
      (∀ r, r ∈ res ↔ r ∈ records (putAll [] [⟨[103], [65], [65], 1, 0, [110]⟩,
          ⟨[103], [66], [66], 1, 0, [111]⟩, ⟨[103], [65], [66], 2, 0, [101]⟩]) ∧ r.K1 = r.K2 ∧
        ∃ e ∈ records (putAll [] [⟨[103], [65], [65], 1, 0, [110]⟩,
          ⟨[103], [66], [66], 1, 0, [111]⟩, ⟨[103], [65], [66], 2, 0, [101]⟩]),
          e.K1 = [65] ∧ e.K1 ≠ e.K2 ∧ e.K2 = r.K1) ∧
      res.Nodup ∧
      (∀ r ∈ res, r.K1 = r.K2 ∧ r.K1 ≠ [65]) ∧
      (∀ r, (¬ ∃ e ∈ records (putAll [] [⟨[103], [65], [65], 1, 0, [110]⟩,
          ⟨[103], [66], [66], 1, 0, [111]⟩, ⟨[103], [65], [66], 2, 0, [101]⟩]),
          e.K1 = [65] ∧ e.K1 ≠ e.K2 ∧ e.K2 = r.K1) → r ∉ res) ∧
      ((∀ e ∈ records (putAll [] [⟨[103], [65], [65], 1, 0, [110]⟩,
          ⟨[103], [66], [66], 1, 0, [111]⟩, ⟨[103], [65], [66], 2, 0, [101]⟩]),
          e.K1 = [65] → e.K1 = e.K2) → res = []) :=
  have hr : Reachable (putAll [] [⟨[103], [65], [65], 1, 0, [110]⟩,
      ⟨[103], [66], [66], 1, 0, [111]⟩, ⟨[103], [65], [66], 2, 0, [101]⟩]) :=
    Reachable.put _ (Reachable.put _ (Reachable.put _ Reachable.empty))
  ⟨hr, findUpstream_characterisation _ [65] hr⟩

theorem map_filter_fixed {α : Type} (f : α → α) (p : α → Bool) (l : List α)
    (h : ∀ x, p x = true → f x = x) : (l.filter p).map f = l.filter p := by
  induction l with
  | nil => rfl
  | cons a l ih =>
    by_cases ha : p a = true
    · simp [List.filter_cons, ha, ih, h a ha]
    · simp [List.filter_cons, ha, ih]

/-- C5. FindDownstream mirrors FindUpstream: for every table t and nodeID n,
`FindDownstream(n)` on t returns the very list `FindUpstream(n)` returns on t
with K1 and K2 swapped in every row; and it succeeds with exactly the stored
records r with `r.K1 = r.K2` for which some stored record e has `e.K2 = n`,
`e.K1 ≠ e.K2` and `e.K1 = r.K1`. -/
theorem findDownstream_mirror (t : Table) (n : Bytes) :
    FindDownstream store t n = FindUpstream store (t.map Row.swap) n ∧
    ∃ res, FindDownstream store t n = .ok res ∧
      ∀ r, r ∈ res ↔ r ∈ records t ∧ r.K1 = r.K2 ∧
        ∃ e ∈ records t, e.K2 = n ∧ e.K1 ≠ e.K2 ∧ e.K1 = r.K1 := by
  constructor
  · rw [findDownstream_store, findUpstream_store]
    congr 2
    unfold selectUpstreamDependencies selectDownstreamDependencies
    rw [List.filter_map, List.filter_map, List.map_map]
    have hf : ((fun e : Row => e.k2) ∘ Row.swap) = fun e => e.k1 := rfl
    rw [hf]
    have hp : ((fun r : Row => decide (r.k1 ∈ List.map (fun e => e.k1)
          (List.filter ((fun e : Row => decide (e.k1 = n ∧ e.k1 ≠ e.k2)) ∘ Row.swap) t))
          && decide (r.k1 = r.k2)) ∘ Row.swap)
        = fun r => decide (r.k2 ∈ List.map (fun e => e.k1)
          (List.filter (fun e : Row => decide (e.k2 = n ∧ e.k1 ≠ e.k2)) t))
          && decide (r.k1 = r.k2) := by
      funext r
      have hq : ((fun e : Row => decide (e.k1 = n ∧ e.k1 ≠ e.k2)) ∘ Row.swap)
          = fun e : Row => decide (e.k2 = n ∧ e.k1 ≠ e.k2) := by
        funext e
        simp only [Function.comp, Row.swap]
        congr 1
        exact propext ⟨fun h => ⟨h.1, fun h2 => h.2 h2.symm⟩, fun h => ⟨h.1, fun h2 => h.2 h2.symm⟩⟩
      rw [hq]
      simp only [Function.comp, Row.swap]
      congr 2
      exact propext ⟨fun h => h.symm, fun h => h.symm⟩
    rw [hp]
    symm
    apply map_filter_fixed
    intro x hx
    simp only [Bool.and_eq_true, decide_eq_true_eq] at hx
    cases x
    simp only [Row.swap] at hx ⊢
    simp only [Row.mk.injEq, and_true, true_and]
    exact ⟨hx.2.symm, hx.2⟩
  · refine ⟨_, findDownstream_store t n, ?_⟩
    intro r
    rw [mem_map_item, mem_selectDownstream, mem_records, exists_records]
    rfl

/-- C4, as stated, fails: with A = "A" and B = "B" the third Put (the edge at
Version 1) is refused, because node A already holds (type "g", K1 = A,
Version 1); so `FindUpstream(A)` and `FindDownstream(B)` return empty
sequences, not `[nodeB]` and `[nodeA]`. -/
theorem adjacency_v1_refuted :
    (Put store (putAll [] [nodeA [65], nodeB [66]]) (edgeAB [65] [66] 1)).1
      = some .constraintViolation ∧
    FindUpstream store (putAll [] [nodeA [65], nodeB [66], edgeAB [65] [66] 1]) [65] = .ok [] ∧
    FindDownstream store (putAll [] [nodeA [65], nodeB [66], edgeAB [65] [66] 1]) [66] = .ok [] ∧
    FindUpstream store (putAll [] [nodeA [65], nodeB [66], edgeAB [65] [66] 1]) [65]
      ≠ .ok [nodeB [66]] ∧
    FindDownstream store (putAll [] [nodeA [65], nodeB [66], edgeAB [65] [66] 1]) [66]
      ≠ .ok [nodeA [65]] := by
  have hu : FindUpstream store (putAll [] [nodeA [65], nodeB [66], edgeAB [65] [66] 1]) [65]
      = .ok [] := rfl
  have hd : FindDownstream store (putAll [] [nodeA [65], nodeB [66], edgeAB [65] [66] 1]) [66]
      = .ok [] := rfl
  refine ⟨rfl, hu, hd, ?_, ?_⟩
  · rw [hu]
    intro h
    simp at h
  · rw [hd]
    intro h
    simp at h

theorem putAll_example (A B : Bytes) (hAB : A ≠ B) (v : Nat) (hv63 : v < 2 ^ 63) :
    putAll [] [nodeA A, nodeB B, edgeAB A B v] =
      if v = 1 then [(nodeA A).row, (nodeB B).row]
      else [(nodeA A).row, (nodeB B).row, (edgeAB A B v).row] := by
  have hBA : B ≠ A := Ne.symm hAB
  have hv3 : ¬ 9223372036854775808 ≤ v := by omega
  by_cases hv : v = 1
  · simp [putAll, put_store, insertRow, GraphItem.row, nodeA, nodeB, edgeAB, hAB, hBA, hv]
  · have hv2 : ¬ 1 = v := fun h => hv h.symm
    simp [putAll, put_store, insertRow, GraphItem.row, nodeA, nodeB, edgeAB, hAB, hBA, hv, hv2,
      hv3]

/-- C4, amended. From the empty store, with A ≠ B, the two node Puts succeed.
With the edge at Version 1, as in the example, its Put is refused with a
constraint violation and all four traversals return empty sequences.  With
the edge at any other version below 2^63 its Put succeeds,
`FindUpstream(A)` returns exactly `[nodeB]`, `FindDownstream(B)` exactly
`[nodeA]`, and `FindUpstream(B)` and `FindDownstream(A)` return empty
sequences. -/
theorem adjacency_by_edge_version (A B : Bytes) (hAB : A ≠ B) (v : Nat) :
    (Put store [] (nodeA A)).1 = none ∧
    (Put store (putAll [] [nodeA A]) (nodeB B)).1 = none ∧
    (v = 1 →
      (Put store (putAll [] [nodeA A, nodeB B]) (edgeAB A B v)).1 = some .constraintViolation ∧
      FindUpstream store (putAll [] [nodeA A, nodeB B, edgeAB A B v]) A = .ok [] ∧
      FindDownstream store (putAll [] [nodeA A, nodeB B, edgeAB A B v]) B = .ok [] ∧
      FindUpstream store (putAll [] [nodeA A, nodeB B, edgeAB A B v]) B = .ok [] ∧
      FindDownstream store (putAll [] [nodeA A, nodeB B, edgeAB A B v]) A = .ok []) ∧
    (v ≠ 1 → v < 2 ^ 63 →
      (Put store (putAll [] [nodeA A, nodeB B]) (edgeAB A B v)).1 = none ∧
      FindUpstream store (putAll [] [nodeA A, nodeB B, edgeAB A B v]) A = .ok [nodeB B] ∧
      FindDownstream store (putAll [] [nodeA A, nodeB B, edgeAB A B v]) B = .ok [nodeA A] ∧
      FindUpstream store (putAll [] [nodeA A, nodeB B, edgeAB A B v]) B = .ok [] ∧
      FindDownstream store (putAll [] [nodeA A, nodeB B, edgeAB A B v]) A = .ok []) := by
  have hBA : B ≠ A := Ne.symm hAB
  refine ⟨rfl, ?_, ?_, ?_⟩
  · simp [putAll, put_store, insertRow, GraphItem.row, nodeA, nodeB, hAB]
  · intro hv
    rw [putAll_example A B hAB v (by omega), if_pos hv]
    subst hv
    refine ⟨?_, ?_, ?_, ?_, ?_⟩
    · simp [putAll, put_store, insertRow, GraphItem.row, nodeA, nodeB, edgeAB, hAB]
    · simp [findUpstream_store, selectUpstreamDependencies, GraphItem.row, nodeA, nodeB]
    · simp [findDownstream_store, selectDownstreamDependencies, GraphItem.row, nodeA, nodeB]
    · simp [findUpstream_store, selectUpstreamDependencies, GraphItem.row, nodeA, nodeB]
    · simp [findDownstream_store, selectDownstreamDependencies, GraphItem.row, nodeA, nodeB]
  · intro hv hv63
    have hv2 : ¬ 1 = v := fun h => hv h.symm
    have hv3 : ¬ 9223372036854775808 ≤ v := by omega
    rw [putAll_example A B hAB v hv63, if_neg hv]
    refine ⟨?_, ?_, ?_, ?_, ?_⟩
    · simp [putAll, put_store, insertRow, GraphItem.row, nodeA, nodeB, edgeAB, hAB, hBA, hv2,
        hv3]
    · simp [findUpstream_store, selectUpstreamDependencies, GraphItem.row, Row.item, nodeA,
        nodeB, edgeAB, hAB, hBA]
    · simp [findDownstream_store, selectDownstreamDependencies, GraphItem.row, Row.item, nodeA,
        nodeB, edgeAB, hAB, hBA]
    · simp [findUpstream_store, selectUpstreamDependencies, GraphItem.row, Row.item, nodeA,
        nodeB, edgeAB, hAB, hBA]
    · simp [findDownstream_store, selectDownstreamDependencies, GraphItem.row, Row.item, nodeA,
        nodeB, edgeAB, hAB, hBA]

/-- Witness for C4 amended: A = "A", B = "B", edge at Version 2. -/
theorem adjacency_by_edge_version_witness :
    ([65] : Bytes) ≠ [66] ∧ (2 : Nat) ≠ 1 ∧ (2 : Nat) < 2 ^ 63 ∧
    FindUpstream store (putAll [] [nodeA [65], nodeB [66], edgeAB [65] [66] 2]) [65]
      = .ok [nodeB [66]] ∧
    FindDownstream store (putAll [] [nodeA [65], nodeB [66], edgeAB [65] [66] 2]) [66]
      = .ok [nodeA [65]] :=
  ⟨by decide, by decide, by decide,
    ((adjacency_by_edge_version [65] [66] (by decide) 2).2.2.2 (by decide) (by decide)).2.1,
    ((adjacency_by_edge_version [65] [66] (by decide) 2).2.2.2 (by decide) (by decide)).2.2.1⟩

/-- C6, as stated, fails: after Put of an edge of type "g" from A to B and Put
of a node record of type "h" with id B, `FindUpstream(A)` returns the type-"h"
node, although every record linking it to A has another type; likewise
`FindDownstream(B)` after an edge of type "g" and a type-"h" node with id A. -/
theorem type_scope_refuted :
    FindUpstream store
        (putAll [] [⟨[103], [65], [66], 1, 0, [101]⟩, ⟨[104], [66], [66], 1, 0, [110]⟩]) [65]
      = .ok [⟨[104], [66], [66], 1, 0, [110]⟩] ∧
    (∀ e ∈ records
        (putAll [] [⟨[103], [65], [66], 1, 0, [101]⟩, ⟨[104], [66], [66], 1, 0, [110]⟩]),
      e.K1 = [65] → e.K2 = [66] → e.GraphItemType ≠ [104]) ∧
    FindDownstream store
        (putAll [] [⟨[103], [65], [66], 1, 0, [101]⟩, ⟨[104], [65], [65], 1, 0, [110]⟩]) [66]
      = .ok [⟨[104], [65], [65], 1, 0, [110]⟩] ∧
    (∀ e ∈ records
        (putAll [] [⟨[103], [65], [66], 1, 0, [101]⟩, ⟨[104], [65], [65], 1, 0, [110]⟩]),
      e.K1 = [65] → e.K2 = [66] → e.GraphItemType ≠ [104]) := by
  have h1 : records
      (putAll [] [⟨[103], [65], [66], 1, 0, [101]⟩, ⟨[104], [66], [66], 1, 0, [110]⟩])
      = [⟨[103], [65], [66], 1, 0, [101]⟩, ⟨[104], [66], [66], 1, 0, [110]⟩] := rfl
  have h2 : records
      (putAll [] [⟨[103], [65], [66], 1, 0, [101]⟩, ⟨[104], [65], [65], 1, 0, [110]⟩])
      = [⟨[103], [65], [66], 1, 0, [101]⟩, ⟨[104], [65], [65], 1, 0, [110]⟩] := rfl
  refine ⟨rfl, ?_, rfl, ?_⟩
  · rw [h1]
    intro e he
    simp only [List.mem_cons, List.mem_singleton, List.not_mem_nil, or_false] at he
    rcases he with rfl | rfl <;> simp
  · rw [h2]
    intro e he
    simp only [List.mem_cons, List.mem_singleton, List.not_mem_nil, or_false] at he
    rcases he with rfl | rfl <;> simp

/-- C6, amended. Traversal is not scoped per type.  `FindUpstream(nodeID)`
succeeds and returns exactly the stored node records r (`r.K1 = r.K2`) for
which some stored record e has `e.K1 = nodeID`, `e.K1 ≠ e.K2` and
`e.K2 = r.K1`, with no condition on the ItemType of e or of r: whenever a
stored edge record from nodeID reaches an id, every stored node record with
that id is returned, whatever the two ItemTypes are.  The same holds for
`FindDownstream` with the edge reversed. -/
theorem traversal_ignores_type (t : Table) (nodeID : Bytes) :
    (∃ res, FindUpstream store t nodeID = .ok res ∧
      (∀ r, r ∈ res ↔ r ∈ records t ∧ r.K1 = r.K2 ∧
        ∃ e ∈ records t, e.K1 = nodeID ∧ e.K1 ≠ e.K2 ∧ e.K2 = r.K1) ∧
      (∀ e ∈ records t, ∀ q ∈ records t,
        e.K1 = nodeID → e.K1 ≠ e.K2 → q.K1 = e.K2 → q.K2 = e.K2 → q ∈ res)) ∧
    (∃ res, FindDownstream store t nodeID = .ok res ∧
      (∀ r, r ∈ res ↔ r ∈ records t ∧ r.K1 = r.K2 ∧
        ∃ e ∈ records t, e.K2 = nodeID ∧ e.K1 ≠ e.K2 ∧ e.K1 = r.K1) ∧
      (∀ e ∈ records t, ∀ q ∈ records t,
        e.K2 = nodeID → e.K1 ≠ e.K2 → q.K1 = e.K1 → q.K2 = e.K1 → q ∈ res)) := by
  have hup : ∀ r, r ∈ (selectUpstreamDependencies t nodeID).map Row.item ↔
      r ∈ records t ∧ r.K1 = r.K2 ∧
        ∃ e ∈ records t, e.K1 = nodeID ∧ e.K1 ≠ e.K2 ∧ e.K2 = r.K1 := by
    intro r
    rw [mem_map_item, mem_selectUpstream, mem_records, exists_records]
    rfl
  have hdown : ∀ r, r ∈ (selectDownstreamDependencies t nodeID).map Row.item ↔
      r ∈ records t ∧ r.K1 = r.K2 ∧
        ∃ e ∈ records t, e.K2 = nodeID ∧ e.K1 ≠ e.K2 ∧ e.K1 = r.K1 := by
    intro r
    rw [mem_map_item, mem_selectDownstream, mem_records, exists_records]
    rfl
  constructor
  · refine ⟨_, findUpstream_store t nodeID, hup, ?_⟩
    intro e he q hq h1 h2 h3 h4
    exact (hup q).2 ⟨hq, h3.trans h4.symm, e, he, h1, h2, h3.symm⟩
  · refine ⟨_, findDownstream_store t nodeID, hdown, ?_⟩
    intro e he q hq h1 h2 h3 h4
    exact (hdown q).2 ⟨hq, h3.trans h4.symm, e, he, h1, h2, h3.symm⟩

/-- C7, as stated, fails: for the key (type "g", A, A) `FindByPrimary` returns
on the empty table (no row matches) the very value it returns on a table where
two rows match, so the two outcomes cannot be told apart; the same for
`FindBySecondary` with the key (type "g", A, Version 1). -/
theorem not_found_conflated :
    (selectPrimaryKey [] [103] [65] [65]).length = 0 ∧
    (selectPrimaryKey twoRows [103] [65] [65]).length = 2 ∧
    FindByPrimary store [] ⟨[103], [65], [65]⟩
      = FindByPrimary store twoRows ⟨[103], [65], [65]⟩ ∧
    (selectSecondaryKey [] [103] [65] 1).length = 0 ∧
    (selectSecondaryKey twoRows [103] [65] 1).length = 2 ∧
    FindBySecondary store [] ⟨[103], [65], 1⟩
      = FindBySecondary store twoRows ⟨[103], [65], 1⟩ :=
  ⟨rfl, rfl, rfl, rfl, rfl, rfl⟩

/-- C7, amended. Whenever the number of stored records matching a primary
key is not one, be it none or several, `FindByPrimary` returns no item and the
one error built from the key, "failed to read record using primary key".
`FindBySecondary` does likewise with its own error for a key whose Version is
below 2^63; for a Version of 2^63 or more it returns the conversion error of
the driver, whatever the store holds.  No separate outcome for "not found"
exists. -/
theorem find_error_generic (t : Table) (pk : PrimaryKey) (sk : SecondaryKey) :
    (((records t).filter (fun r => decide (r.GraphItemType = pk.GraphItemType ∧ r.K1 = pk.K1
        ∧ r.K2 = pk.K2))).length ≠ 1 →
      FindByPrimary store t pk = .error (.failedPrimary pk)) ∧
    (sk.Version < 2 ^ 63 →
      ((records t).filter (fun r => decide (r.GraphItemType = sk.GraphItemType ∧ r.K1 = sk.K1
        ∧ r.Version = sk.Version))).length ≠ 1 →
      FindBySecondary store t sk = .error (.failedSecondary sk)) ∧
    (2 ^ 63 ≤ sk.Version → FindBySecondary store t sk = .error .conversion) := by
  refine ⟨?_, ?_, ?_⟩
  · intro h
    rw [records, List.filter_map, List.length_map] at h
    exact findByPrimary_error h
  · intro hv h
    rw [records, List.filter_map, List.length_map] at h
    exact findBySecondary_error hv h
  · intro hv
    exact findBySecondary_conversion hv

/-- Witness for C7 amended: the empty table for the primary key, the table
with two matching rows for the secondary key, and a secondary key at Version
2^63. -/
theorem find_error_generic_witness :
    ((records []).filter (fun r => decide (r.GraphItemType = [103] ∧ r.K1 = [65]
        ∧ r.K2 = [65]))).length ≠ 1 ∧
    FindByPrimary store [] ⟨[103], [65], [65]⟩ = .error (.failedPrimary ⟨[103], [65], [65]⟩) ∧
    (1 : Nat) < 2 ^ 63 ∧
    ((records twoRows).filter (fun r => decide (r.GraphItemType = [103] ∧ r.K1 = [65]
        ∧ r.Version = 1))).length ≠ 1 ∧
    FindBySecondary store twoRows ⟨[103], [65], 1⟩
      = .error (.failedSecondary ⟨[103], [65], 1⟩) ∧
    (2 : Nat) ^ 63 ≤ 9223372036854775808 ∧
    FindBySecondary store twoRows ⟨[103], [65], 9223372036854775808⟩ = .error .conversion :=
  ⟨by decide,
    (find_error_generic [] ⟨[103], [65], [65]⟩ ⟨[103], [65], 1⟩).1 (by decide),
    by decide, by decide,
    (find_error_generic twoRows ⟨[103], [65], [65]⟩ ⟨[103], [65], 1⟩).2.1 (by decide)
      (by decide),
    by decide,
    (find_error_generic twoRows ⟨[103], [65], [65]⟩ ⟨[103], [65], 9223372036854775808⟩).2.2
      (by decide)⟩

/-- C9. Result materialisation.  A cursor's rows either all decode or have a
first row that does not.  If all decode, `readFullyAndClose` returns one item
per row, in cursor order, each field being the row's column, reads the cursor
to its end and closes it (an empty cursor gives the empty sequence and no
error).  If some row fails to decode, it returns that first row's error and no
items, and the rows after it are left unread in the closed cursor. -/
theorem readFullyAndClose_materialises (lasterr : Option Err) (closed : Bool) :
    (∀ l : List (Except Err Row),
      (∃ cs : List Row, l = cs.map .ok) ∨
      (∃ (pre : List Row) (e : Err) (post : List (Except Err Row)),
        l = pre.map .ok ++ .error e :: post)) ∧
    (∀ cs : List Row,
      readFullyAndClose { pending := cs.map .ok, lasterr := lasterr, closed := closed } =
        (.ok (cs.map (fun c =>
            { GraphItemType := c.graph_data_type, K1 := c.k1, K2 := c.k2, Version := c.version
              Encoding := c.encoding, GraphItemData := c.graph_data })),
          { pending := [], lasterr := lasterr, closed := true })) ∧
    (readFullyAndClose { pending := [], lasterr := lasterr, closed := closed }).1 = .ok [] ∧
    (∀ (pre : List Row) (e : Err) (post : List (Except Err Row)),
      readFullyAndClose
          { pending := pre.map .ok ++ .error e :: post, lasterr := lasterr, closed := closed } =
        (.error e, { pending := post, lasterr := lasterr, closed := true })) := by
  refine ⟨?_, ?_, rfl, ?_⟩
  · intro l
    induction l with
    | nil => exact Or.inl ⟨[], rfl⟩
    | cons a l ih =>
      cases a with
      | error e => exact Or.inr ⟨[], e, l, rfl⟩
      | ok c =>
        rcases ih with ⟨cs, rfl⟩ | ⟨pre, e, post, rfl⟩
        · exact Or.inl ⟨c :: cs, rfl⟩
        · exact Or.inr ⟨c :: pre, e, post, rfl⟩
  · intro cs
    simp only [readFullyAndClose, readLoop_ok, List.nil_append]
    rfl
  · intro pre e post
    simp only [readFullyAndClose, readLoop_error]

/-- C10 fails on the code: against an engine whose cursor delivers one row and
then fails to advance (`rows.Err()` is set), all four read operations return
the row read before the failure as a successful result, and no error. -/
theorem cursor_failure_not_surfaced :
    (∀ stmt args, ∃ rows, flaky.Query () stmt args = .ok rows ∧
      rows.lasterr = some (.backend 10)) ∧
    FindUpstream { db := flaky } () [65] = .ok [⟨[103], [66], [66], 1, 0, [110]⟩] ∧
    FindDownstream { db := flaky } () [65] = .ok [⟨[103], [66], [66], 1, 0, [110]⟩] ∧
    FindByPrimary { db := flaky } () ⟨[103], [66], [66]⟩ = .ok ⟨[103], [66], [66], 1, 0, [110]⟩ ∧
    FindBySecondary { db := flaky } () ⟨[103], [66], 1⟩ = .ok ⟨[103], [66], [66], 1, 0, [110]⟩ :=
  ⟨fun _ _ => ⟨_, rfl, rfl⟩, rfl, rfl, rfl, rfl⟩

end GraphStore
